import Mathlib

/-!
Verification of the dbot `RbcParticleFilterTrackerBuilder` core
(`src/include/dbot/tracker/builder/rbc_particle_filter_tracker_builder.hpp`).

The repository slice contains the builder header only: the class and
member declarations, the `Parameters` data model, and the fully inlined
`NoGpuSupportException::what()`. Method bodies (`build`, `create_filter`,
`create_obsrv_model`, `create_object_transition_model`,
`create_object_model`, `create_sampling_blocks`, the constructor) live in
a translation unit that is not part of the slice; where a definition below
embeds such a missing body it is modelled from the specification and says
so in its doc comment. The data model, the member-by-value declarations
and the exception are translated directly from the header.

C++ `double` fields are embedded as `ℚ`; C++ `int`/`size_t` counts as
`Int`/`Nat`; a C++ function that can throw is embedded as returning
`Except TrackerError`.
-/

namespace dbot

/-- Compute backend of an observation model: default host compute (CPU)
or accelerated compute (GPU). -/
inductive Backend
  | cpu
  | gpu
deriving DecidableEq

/-- Transition-model policy: the rigid-body kinematic object-transition
model or the random-walk (Brownian) motion model. -/
inductive TransitionPolicy
  | kinematic
  | brownian
deriving DecidableEq

/-- `RbcParticleFilterTrackerBuilder::Parameters::TrackerParmeters`
(misspelling as in the header, lines 62-68): per-backend tracker
parameters. -/
structure TrackerParmeters where
  evaluation_count : Int
  max_sample_count : Int
  update_rate : ℚ
  max_kl_divergence : ℚ
deriving DecidableEq

/-- External collaborator type `ObjectResourceIdentifier` (declared in a
header outside the slice). The spec treats it as an opaque resource
identifier from which the builder reads the object (mesh) count, so it is
embedded as the mesh package name together with the mesh count. -/
structure ObjectResourceIdentifier where
  package : String
  mesh_count : Nat
deriving DecidableEq

/-- External collaborator type `dbot::CameraData` (outside the slice):
an opaque sensor-data handle, passed through unchanged. -/
structure CameraData where
  frame_id : String
  downsampling_factor : Nat
deriving DecidableEq

/-- External collaborator type: observation-model parameters
(`RbObservationModelBuilder<State>::Parameters`), opaque to the builder. -/
structure ObservationParameters where
  tail_weight : ℚ
deriving DecidableEq

/-- External collaborator type: kinematic object-transition parameters
(`ObjectTransitionModelBuilder<State, Input>::Parameters`), opaque to the
builder. -/
structure ObjectTransitionParameters where
  linear_sigma : ℚ
  angular_sigma : ℚ
deriving DecidableEq

/-- External collaborator type: random-walk (Brownian) transition
parameters (`BrownianMotionModelBuilder<State, Input>::Parameters`),
opaque to the builder. -/
structure BrownianTransitionParameters where
  linear_sigma : ℚ
  angular_sigma : ℚ
deriving DecidableEq

/-- `RbcParticleFilterTrackerBuilder::Parameters` (header lines 60-82):
the backend flag, the three `TrackerParmeters` instances (`cpu`, `gpu`,
`tracker`), the object resource identifier and the per-collaborator
parameter sets. -/
structure Parameters where
  use_gpu : Bool
  cpu : TrackerParmeters
  gpu : TrackerParmeters
  tracker : TrackerParmeters
  ori : ObjectResourceIdentifier
  observation : ObservationParameters
  object_transition : ObjectTransitionParameters
  brownian_transition : BrownianTransitionParameters
deriving DecidableEq

/-- External collaborator type `ObjectModel`: the loaded renderable
geometry, opaque to the builder. -/
structure ObjectModel where
  vertex_count : Nat
deriving DecidableEq

/-- Errors a build can fail with: the `NoGpuSupportException` of the
header (carrying its diagnostic message) or a collaborator-defined
object-model loading error. -/
inductive TrackerError
  | noGpuSupport (msg : String)
  | objectModelLoadError (msg : String)
deriving DecidableEq

/-- `NoGpuSupportException` (header lines 34-41): an exception whose
`what()` is a constant. The class has no data members. -/
structure NoGpuSupportException where
deriving DecidableEq

/-- `NoGpuSupportException::what()` (header lines 36-41): declared
`const noexcept`, embedded as a total function returning the fixed
string; the two C++ string literals concatenate exactly as written. -/
def NoGpuSupportException.what (_e : NoGpuSupportException) : String :=
  "Tracker has not been compiled with GPU support " ++
  "(DBOT_BUILD_GPU=OFF)."

/-- A constructed observation model: its compute backend together with
the collaborator inputs it was wired with. -/
structure ObservationModel where
  backend : Backend
  object_model : ObjectModel
  camera_data : CameraData
  param : ObservationParameters
deriving DecidableEq

/-- A constructed state-transition model, recording which policy built
it. -/
structure StateTransition where
  policy : TransitionPolicy
  linear_sigma : ℚ
  angular_sigma : ℚ
deriving DecidableEq

/-- Modelled from the spec: the body of
`RbcParticleFilterTrackerBuilder::create_obsrv_model` (declared at header
lines 130-134) is not in the slice. Per spec §4.2 and the declaration doc
comment: the host (CPU) evaluator is constructed unconditionally when
`use_gpu` is false; when `use_gpu` is true and the binary lacks GPU
support (`has_gpu_support` embeds the `DBOT_BUILD_GPU` build-capability
flag), the factory fails with `NoGpuSupportException`; when GPU support
is present the accelerated evaluator is constructed with the same
parameters. -/
def create_obsrv_model (has_gpu_support : Bool) (use_gpu : Bool)
    (object_model : ObjectModel) (camera_data : CameraData)
    (param : ObservationParameters) : Except TrackerError ObservationModel :=
  if use_gpu then
    if has_gpu_support then
      Except.ok
        { backend := Backend.gpu
          object_model := object_model
          camera_data := camera_data
          param := param }
    else
      Except.error
        (TrackerError.noGpuSupport (NoGpuSupportException.what {}))
  else
    Except.ok
      { backend := Backend.cpu
        object_model := object_model
        camera_data := camera_data
        param := param }

/-- Modelled from the spec: the body of
`RbcParticleFilterTrackerBuilder::create_object_transition_model`
(declared at header lines 119-121) is not in the slice. Per its
declaration doc comment it creates the linear (kinematic) object
transition function from the kinematic parameter set; it has no failure
path (spec §4.1). -/
def create_object_transition_model (param : ObjectTransitionParameters) :
    StateTransition :=
  { policy := TransitionPolicy.kinematic
    linear_sigma := param.linear_sigma
    angular_sigma := param.angular_sigma }

/-- Modelled from the spec: the body of
`RbcParticleFilterTrackerBuilder::create_sampling_blocks` (declared at
header lines 149-151) is not in the slice. Per spec §4.3 it returns
`blocks` index groups of length `block_size` each, covering
`[0, blocks*block_size)` contiguously in object order. The C++ signature
takes `int` counts; the spec constrains them to be positive, so they are
embedded as `Nat`. -/
def create_sampling_blocks (blocks : Nat) (block_size : Nat) :
    List (List Nat) :=
  (List.range blocks).map (fun i =>
    (List.range block_size).map (fun j => block_size * i + j))

/-- Modelled from the spec: the per-object state dimension used as the
`block_size` argument of `create_sampling_blocks`. Spec §1 and the
glossary fix a 6-degree-of-freedom rigid-body pose per object, and the
spec §8 end-to-end scenario uses 6 state dimensions per object. -/
def object_state_dimension : Nat := 6

/-- Modelled from the spec: step 5 of `build()` selects the
`TrackerParmeters` instance matching the backend flag used for
observation-model construction, the `gpu` set when `use_gpu` is true and
the `cpu` set when it is false. -/
def active_tracker_parameters (param : Parameters) : TrackerParmeters :=
  if param.use_gpu then param.gpu else param.cpu

/-- The constructed `RBCoordinateParticleFilter` (type alias `Filter`,
header lines 57-58): holds the transition model, the observation model,
the sampling blocks and the adaptive-sampling parameters extracted from
the active `TrackerParmeters` (spec §3 and §4.4 step 6). -/
structure Filter where
  transition : StateTransition
  obsrv_model : ObservationModel
  sampling_blocks : List (List Nat)
  evaluation_count : Int
  max_sample_count : Int
  max_kl_divergence : ℚ
deriving DecidableEq

/-- The returned `RbcParticleFilterObjectTracker`: owns a `Filter` and
the update rate of the active parameter set (spec §3). -/
structure Tracker where
  filter : Filter
  update_rate : ℚ
deriving DecidableEq

/-- Modelled from the spec: the body of
`RbcParticleFilterTrackerBuilder::create_filter` (declared at header
lines 102-103) is not in the slice. Per spec §4.4 steps 2-4 and 6 it
constructs the transition model from the kinematic parameter set, the
observation model via `create_obsrv_model` (propagating its failure
unchanged), the sampling blocks from the object count and per-object
state dimension, and wires them into a `Filter` together with the
`max_kl_divergence` argument and the sample-count bounds of the active
parameter set. -/
def create_filter (has_gpu_support : Bool) (param : Parameters)
    (camera_data : CameraData) (object_model : ObjectModel)
    (max_kl_divergence : ℚ) : Except TrackerError Filter :=
  match create_obsrv_model has_gpu_support param.use_gpu object_model
      camera_data param.observation with
  | Except.error e => Except.error e
  | Except.ok obsrv_model =>
      Except.ok
        { transition :=
            create_object_transition_model param.object_transition
          obsrv_model := obsrv_model
          sampling_blocks :=
            create_sampling_blocks param.ori.mesh_count
              object_state_dimension
          evaluation_count := (active_tracker_parameters param).evaluation_count
          max_sample_count := (active_tracker_parameters param).max_sample_count
          max_kl_divergence := max_kl_divergence }

/-- `RbcParticleFilterTrackerBuilder` (header lines 153-155): the builder
state is the by-value members `param_` and `camera_data_`. -/
structure RbcParticleFilterTrackerBuilder where
  param_ : Parameters
  camera_data_ : CameraData
deriving DecidableEq

/-- Modelled from the spec: the body of the constructor
`RbcParticleFilterTrackerBuilder(const Parameters&, const CameraData&)`
(declared at header lines 90-91) is not in the slice; the members being
declared by value, it copy-initializes `param_` and `camera_data_` from
its arguments (spec §3: the configuration is consumed as an immutable
value). -/
def RbcParticleFilterTrackerBuilder.construct (param : Parameters)
    (camera_data : CameraData) : RbcParticleFilterTrackerBuilder :=
  { param_ := param, camera_data_ := camera_data }

/-- Modelled from the spec: the body of
`RbcParticleFilterTrackerBuilder::build` (declared at header line 96) is
not in the slice. Per spec §4.4 it loads the object model (step 1; the
external loader `create_object_model` is passed in as `load`, its errors
propagating unchanged), constructs the filter from steps 2-6 via
`create_filter` with the `max_kl_divergence` of the active parameter set,
and returns the tracker wired with the filter; any failure propagates
unchanged and no tracker value is produced on failure. -/
def RbcParticleFilterTrackerBuilder.build (has_gpu_support : Bool)
    (load : ObjectResourceIdentifier → Except TrackerError ObjectModel)
    (b : RbcParticleFilterTrackerBuilder) : Except TrackerError Tracker :=
  match load b.param_.ori with
  | Except.error e => Except.error e
  | Except.ok object_model =>
      match create_filter has_gpu_support b.param_ b.camera_data_
          object_model
          (active_tracker_parameters b.param_).max_kl_divergence with
      | Except.error e => Except.error e
      | Except.ok filter =>
          Except.ok
            { filter := filter
              update_rate := (active_tracker_parameters b.param_).update_rate }

/-- Modelled from the spec: the adaptive sample-count rule of the
`RBCoordinateParticleFilter` (spec §4.5 step (c)), whose implementation
is outside the slice: a proposed grown particle count for the next step
is bounded above by `max_sample_count` and below by `evaluation_count`
of the filter. -/
def next_sample_count (f : Filter) (proposed : Int) : Int :=
  min f.max_sample_count (max f.evaluation_count proposed)

/-- Modelled from the spec: the per-step particle counts of a filter run
(spec §4.5), whose implementation is outside the slice. The population
starts at `evaluation_count`; each step of the observation sequence may
propose an arbitrary grown count, which the filter clamps via
`next_sample_count`. The list records the count used at every step. -/
def sample_count_trajectory (f : Filter) (proposals : List Int) :
    List Int :=
  proposals.scanl (fun _current proposed => next_sample_count f proposed)
    f.evaluation_count

/-! Concrete example values used by the witness theorems. The rational
fields use whole numbers so that all evaluations reduce in the kernel. -/

/-- Example configuration: default backend, 2 objects, parameter values
of the spec §8 end-to-end scenario where given. -/
def parameters_example : Parameters :=
  { use_gpu := false
    cpu :=
      { evaluation_count := 100
        max_sample_count := 1000
        update_rate := 1
        max_kl_divergence := 2 }
    gpu :=
      { evaluation_count := 200
        max_sample_count := 2000
        update_rate := 1
        max_kl_divergence := 3 }
    tracker :=
      { evaluation_count := 7
        max_sample_count := 9
        update_rate := 1
        max_kl_divergence := 5 }
    ori := { package := "object_meshes", mesh_count := 2 }
    observation := { tail_weight := 4 }
    object_transition := { linear_sigma := 6, angular_sigma := 7 }
    brownian_transition := { linear_sigma := 8, angular_sigma := 9 } }

/-- Example camera data. -/
def camera_example : CameraData :=
  { frame_id := "camera", downsampling_factor := 1 }

/-- Example loaded object model. -/
def object_model_example : ObjectModel := { vertex_count := 8 }

/-- Example object-model loader that always succeeds. -/
def load_example : ObjectResourceIdentifier → Except TrackerError ObjectModel :=
  fun _ => Except.ok object_model_example

/-- Example collaborator error of the object-model loader. -/
def load_error_example : TrackerError :=
  TrackerError.objectModelLoadError ("object model resource not found")

/-- Example object-model loader that always fails. -/
def load_failing : ObjectResourceIdentifier → Except TrackerError ObjectModel :=
  fun _ => Except.error load_error_example

/-- Example builder constructed from the example configuration. -/
def builder_example : RbcParticleFilterTrackerBuilder :=
  RbcParticleFilterTrackerBuilder.construct parameters_example camera_example

/-- The tracker the example builder produces. -/
def tracker_example : Tracker :=
  { filter :=
      { transition :=
          { policy := TransitionPolicy.kinematic
            linear_sigma := 6
            angular_sigma := 7 }
        obsrv_model :=
          { backend := Backend.cpu
            object_model := object_model_example
            camera_data := camera_example
            param := { tail_weight := 4 } }
        sampling_blocks := create_sampling_blocks 2 6
        evaluation_count := 100
        max_sample_count := 1000
        max_kl_divergence := 2 }
    update_rate := 1 }

/-- The example build succeeds with exactly `tracker_example`. -/
lemma build_example_eq :
    builder_example.build false load_example = Except.ok tracker_example :=
  rfl

/-- The concatenation of the sampling blocks is the ascending range
`0..blocks*block_size-1`, for every block count. -/
lemma create_sampling_blocks_flatten (blocks block_size : Nat) :
    (create_sampling_blocks blocks block_size).flatten =
      List.range (blocks * block_size) := by
  induction blocks with
  | zero => simp [create_sampling_blocks]
  | succ n ih =>
      have h1 : (n + 1) * block_size = n * block_size + block_size :=
        Nat.succ_mul n block_size
      rw [h1, List.range_add, create_sampling_blocks, List.range_succ,
        List.map_append, List.flatten_append]
      rw [create_sampling_blocks] at ih
      rw [ih]
      simp [Nat.mul_comm]

/-- C1: for every `blocks > 0` and `block_size > 0`,
`create_sampling_blocks blocks block_size` returns exactly `blocks`
index groups, each of length `block_size`, whose concatenation in order
is exactly the ascending sequence `0, 1, ..., blocks*block_size - 1`
with no gaps and no overlaps. -/
theorem create_sampling_blocks_partition (blocks block_size : Nat)
    (_hb : 0 < blocks) (_hs : 0 < block_size) :
    (create_sampling_blocks blocks block_size).length = blocks ∧
    (∀ g ∈ create_sampling_blocks blocks block_size,
      g.length = block_size) ∧
    (create_sampling_blocks blocks block_size).flatten =
      List.range (blocks * block_size) := by
  refine ⟨by simp [create_sampling_blocks], ?_,
    create_sampling_blocks_flatten blocks block_size⟩
  intro g hg
  simp only [create_sampling_blocks, List.mem_map, List.mem_range] at hg
  obtain ⟨i, _, rfl⟩ := hg
  simp

/-- Witness for C1 at the example of the claim: `blocks = 3`,
`block_size = 6` yields three groups of six indices concatenating to
`0..17`. -/
theorem create_sampling_blocks_partition_witness :
    (0 < 3 ∧ 0 < 6) ∧
    ((create_sampling_blocks 3 6).length = 3 ∧
     (∀ g ∈ create_sampling_blocks 3 6, g.length = 6) ∧
     (create_sampling_blocks 3 6).flatten = List.range (3 * 6)) :=
  ⟨⟨by decide, by decide⟩,
    create_sampling_blocks_partition 3 6 (by decide) (by decide)⟩

/-- C2: on a binary built without accelerated-backend support
(`has_gpu_support = false`), `create_obsrv_model` with `use_gpu = true`
fails with the `NoGpuSupportException` error carrying the fixed
diagnostic message and constructs no observation model; with
`use_gpu = false` it succeeds for every input and build capability. -/
theorem create_obsrv_model_backend_unavailable
    (object_model : ObjectModel) (camera_data : CameraData)
    (param : ObservationParameters) :
    create_obsrv_model false true object_model camera_data param =
      Except.error (TrackerError.noGpuSupport
        ("Tracker has not been compiled with GPU support (DBOT_BUILD_GPU=OFF).")) ∧
    (∀ has_gpu_support : Bool, ∃ m,
      create_obsrv_model has_gpu_support false object_model camera_data
        param = Except.ok m) :=
  ⟨rfl, fun _ => ⟨_, rfl⟩⟩

/-- C9: `NoGpuSupportException.what` is a total function (the C++
declaration is `const noexcept`) returning the same fixed diagnostic
string on every call and for every instance, independent of any program
state. -/
theorem noGpuSupportException_what_fixed
    (e e2 : NoGpuSupportException) :
    NoGpuSupportException.what e =
      "Tracker has not been compiled with GPU support (DBOT_BUILD_GPU=OFF)." ∧
    NoGpuSupportException.what e = NoGpuSupportException.what e2 :=
  ⟨rfl, rfl⟩

/-- Alternative tracker-parameter set used by witnesses. -/
def tracker_params_alt : TrackerParmeters :=
  { evaluation_count := 1
    max_sample_count := 2
    update_rate := 1
    max_kl_divergence := 1 }

/-- Example builder whose configuration requests the accelerated
backend. -/
def builder_gpu_example : RbcParticleFilterTrackerBuilder :=
  RbcParticleFilterTrackerBuilder.construct
    { parameters_example with use_gpu := true } camera_example

/-- A successfully constructed observation model carries the backend
selected by the `use_gpu` flag. -/
lemma create_obsrv_model_ok_backend (has_gpu_support use_gpu : Bool)
    (om : ObjectModel) (cd : CameraData) (op : ObservationParameters)
    (m : ObservationModel)
    (h : create_obsrv_model has_gpu_support use_gpu om cd op =
      Except.ok m) :
    m.backend = (if use_gpu then Backend.gpu else Backend.cpu) := by
  cases use_gpu <;> cases has_gpu_support <;>
    simp [create_obsrv_model] at h <;> rw [← h] <;> rfl

/-- Field analysis of a successful `create_filter`. -/
lemma create_filter_ok_elim (has_gpu_support : Bool) (p : Parameters)
    (cd : CameraData) (om : ObjectModel) (kl : ℚ) (f : Filter)
    (h : create_filter has_gpu_support p cd om kl = Except.ok f) :
    f.transition = create_object_transition_model p.object_transition ∧
    f.sampling_blocks =
      create_sampling_blocks p.ori.mesh_count object_state_dimension ∧
    f.evaluation_count = (active_tracker_parameters p).evaluation_count ∧
    f.max_sample_count = (active_tracker_parameters p).max_sample_count ∧
    f.max_kl_divergence = kl ∧
    create_obsrv_model has_gpu_support p.use_gpu om cd p.observation =
      Except.ok f.obsrv_model := by
  unfold create_filter at h
  split at h
  · cases h
  · next m heq =>
      injection h with h2
      subst h2
      exact ⟨rfl, rfl, rfl, rfl, rfl, heq⟩

/-- Decomposition of a successful build into its loader and filter
steps. -/
lemma build_ok_elim (has_gpu_support : Bool)
    (load : ObjectResourceIdentifier → Except TrackerError ObjectModel)
    (b : RbcParticleFilterTrackerBuilder) (t : Tracker)
    (h : b.build has_gpu_support load = Except.ok t) :
    ∃ om, load b.param_.ori = Except.ok om ∧
      create_filter has_gpu_support b.param_ b.camera_data_ om
        (active_tracker_parameters b.param_).max_kl_divergence =
        Except.ok t.filter ∧
      t.update_rate = (active_tracker_parameters b.param_).update_rate := by
  unfold RbcParticleFilterTrackerBuilder.build at h
  split at h
  · cases h
  · next om hload =>
      split at h
      · cases h
      · next f hfil =>
          injection h with h2
          subst h2
          exact ⟨om, hload, hfil, rfl⟩

/-- C3: whenever `build()` returns a tracker, the backend of the
observation model inside the returned tracker equals the value of the
configuration flag `use_gpu`: the accelerated evaluator exactly when the
flag is true, the default (host) evaluator exactly when it is false. -/
theorem build_backend_matches_flag (has_gpu_support : Bool)
    (load : ObjectResourceIdentifier → Except TrackerError ObjectModel)
    (b : RbcParticleFilterTrackerBuilder) (t : Tracker)
    (h : b.build has_gpu_support load = Except.ok t) :
    t.filter.obsrv_model.backend =
      (if b.param_.use_gpu then Backend.gpu else Backend.cpu) := by
  obtain ⟨om, _, hfil, _⟩ := build_ok_elim has_gpu_support load b t h
  obtain ⟨_, _, _, _, _, hobs⟩ :=
    create_filter_ok_elim has_gpu_support b.param_ b.camera_data_ om
      (active_tracker_parameters b.param_).max_kl_divergence t.filter hfil
  exact create_obsrv_model_ok_backend has_gpu_support b.param_.use_gpu om
    b.camera_data_ b.param_.observation t.filter.obsrv_model hobs

/-- Witness for C3 at the example configuration (default backend). -/
theorem build_backend_matches_flag_witness :
    builder_example.build false load_example = Except.ok tracker_example ∧
    tracker_example.filter.obsrv_model.backend =
      (if builder_example.param_.use_gpu then Backend.gpu
       else Backend.cpu) :=
  ⟨rfl, build_backend_matches_flag false load_example builder_example
    tracker_example (by rfl)⟩

/-- C4: `build()` is atomic: every invocation either returns a tracker
or fails with an error; a loader failure propagates unchanged to the
caller; an observation-model construction failure (after a successful
load) propagates unchanged to the caller; in neither failure case is any
tracker produced. -/
theorem build_atomic (has_gpu_support : Bool)
    (load : ObjectResourceIdentifier → Except TrackerError ObjectModel)
    (b : RbcParticleFilterTrackerBuilder) :
    ((∃ t, b.build has_gpu_support load = Except.ok t) ∨
     (∃ e, b.build has_gpu_support load = Except.error e)) ∧
    (∀ e, load b.param_.ori = Except.error e →
      b.build has_gpu_support load = Except.error e) ∧
    (∀ om e, load b.param_.ori = Except.ok om →
      create_obsrv_model has_gpu_support b.param_.use_gpu om
        b.camera_data_ b.param_.observation = Except.error e →
      b.build has_gpu_support load = Except.error e) := by
  refine ⟨?_, ?_, ?_⟩
  · cases h : b.build has_gpu_support load with
    | ok t => exact Or.inl ⟨t, rfl⟩
    | error e => exact Or.inr ⟨e, rfl⟩
  · intro e he
    simp [RbcParticleFilterTrackerBuilder.build, he]
  · intro om e hload hobs
    simp [RbcParticleFilterTrackerBuilder.build, hload, create_filter,
      hobs]

/-- Witness for C4: a failing loader propagates its error through the
example build unchanged, and a GPU request on a GPU-less binary
propagates the backend error unchanged. -/
theorem build_atomic_witness :
    (load_failing builder_example.param_.ori =
      Except.error load_error_example ∧
     builder_example.build false load_failing =
      Except.error load_error_example) ∧
    (builder_gpu_example.build false load_example =
      Except.error (TrackerError.noGpuSupport
        (NoGpuSupportException.what {}))) :=
  ⟨⟨rfl, (build_atomic false load_failing builder_example).2.1
      load_error_example rfl⟩,
   (build_atomic false load_example builder_gpu_example).2.2
      object_model_example
      (TrackerError.noGpuSupport (NoGpuSupportException.what {}))
      rfl rfl⟩

/-- The transition model of every built tracker comes from the kinematic
object-transition factory applied to the kinematic parameter set. -/
lemma build_ok_transition (has_gpu_support : Bool)
    (load : ObjectResourceIdentifier → Except TrackerError ObjectModel)
    (b : RbcParticleFilterTrackerBuilder) (t : Tracker)
    (h : b.build has_gpu_support load = Except.ok t) :
    t.filter.transition =
      create_object_transition_model b.param_.object_transition := by
  obtain ⟨om, _, hfil, _⟩ := build_ok_elim has_gpu_support load b t h
  exact (create_filter_ok_elim has_gpu_support b.param_ b.camera_data_ om
    (active_tracker_parameters b.param_).max_kl_divergence t.filter
    hfil).1

/-- Counterexample to C5: no configuration, loader, build-capability
flag — in particular no designation of the random-walk parameter set as
active — ever produces a tracker whose transition model is the
random-walk (Brownian) variant: that factory is commented out in the
header (lines 105-113) and the builder declares no other transition
factory than the kinematic one. -/
theorem build_never_brownian :
    ¬ ∃ (has_gpu_support : Bool)
        (load : ObjectResourceIdentifier → Except TrackerError ObjectModel)
        (b : RbcParticleFilterTrackerBuilder) (t : Tracker),
        b.build has_gpu_support load = Except.ok t ∧
        t.filter.transition.policy = TransitionPolicy.brownian := by
  rintro ⟨hg, load, b, t, h, hpol⟩
  rw [build_ok_transition hg load b t h] at hpol
  simp [create_object_transition_model] at hpol

/-- C5 amended: exactly one transition-model policy is used per build,
and it is always the kinematic object-transition model built from the
kinematic parameter set; the random-walk (Brownian) variant is not
constructible because its factory is commented out. -/
theorem build_transition_always_kinematic (has_gpu_support : Bool)
    (load : ObjectResourceIdentifier → Except TrackerError ObjectModel)
    (b : RbcParticleFilterTrackerBuilder) (t : Tracker)
    (h : b.build has_gpu_support load = Except.ok t) :
    t.filter.transition.policy = TransitionPolicy.kinematic ∧
    t.filter.transition =
      create_object_transition_model b.param_.object_transition := by
  have h1 := build_ok_transition has_gpu_support load b t h
  exact ⟨by rw [h1]; rfl, h1⟩

/-- Witness for amended C5 at the example configuration. -/
theorem build_transition_always_kinematic_witness :
    tracker_example.filter.transition.policy =
      TransitionPolicy.kinematic ∧
    tracker_example.filter.transition =
      create_object_transition_model
        builder_example.param_.object_transition :=
  build_transition_always_kinematic false load_example builder_example
    tracker_example (by rfl)

/-- C6: the tracker parameters wired into the built filter —
`max_kl_divergence` and the sample-count bounds — come from the
parameter set matching the backend flag (`gpu` when `use_gpu` is true,
`cpu` when it is false), and the third parameter set (`tracker`) has no
influence on the build result. -/
theorem build_wires_active_parameters (has_gpu_support : Bool)
    (load : ObjectResourceIdentifier → Except TrackerError ObjectModel)
    (b : RbcParticleFilterTrackerBuilder) (t : Tracker)
    (tp : TrackerParmeters)
    (h : b.build has_gpu_support load = Except.ok t) :
    (t.filter.max_kl_divergence =
       (if b.param_.use_gpu then b.param_.gpu
        else b.param_.cpu).max_kl_divergence ∧
     t.filter.evaluation_count =
       (if b.param_.use_gpu then b.param_.gpu
        else b.param_.cpu).evaluation_count ∧
     t.filter.max_sample_count =
       (if b.param_.use_gpu then b.param_.gpu
        else b.param_.cpu).max_sample_count) ∧
    RbcParticleFilterTrackerBuilder.build has_gpu_support load
      { b with param_ := { b.param_ with tracker := tp } } =
      b.build has_gpu_support load := by
  obtain ⟨om, _, hfil, _⟩ := build_ok_elim has_gpu_support load b t h
  obtain ⟨_, _, hev, hmax, hkl, _⟩ :=
    create_filter_ok_elim has_gpu_support b.param_ b.camera_data_ om
      (active_tracker_parameters b.param_).max_kl_divergence t.filter hfil
  exact ⟨⟨hkl, hev, hmax⟩, rfl⟩

/-- Witness for C6 at the example configuration, with an unrelated
third parameter set substituted. -/
theorem build_wires_active_parameters_witness :
    (tracker_example.filter.max_kl_divergence =
       (if builder_example.param_.use_gpu then builder_example.param_.gpu
        else builder_example.param_.cpu).max_kl_divergence ∧
     tracker_example.filter.evaluation_count =
       (if builder_example.param_.use_gpu then builder_example.param_.gpu
        else builder_example.param_.cpu).evaluation_count ∧
     tracker_example.filter.max_sample_count =
       (if builder_example.param_.use_gpu then builder_example.param_.gpu
        else builder_example.param_.cpu).max_sample_count) ∧
    RbcParticleFilterTrackerBuilder.build false load_example
      { builder_example with
        param_ := { builder_example.param_ with
          tracker := tracker_params_alt } } =
      builder_example.build false load_example :=
  build_wires_active_parameters false load_example builder_example
    tracker_example tracker_params_alt (by rfl)

/-- C7: `build()` is deterministic: two invocations with the same
configuration, camera data, build capability and loader produce trackers
with structurally equal sampling blocks and the same observation-model
backend. -/
theorem build_deterministic (has_gpu_support : Bool)
    (load : ObjectResourceIdentifier → Except TrackerError ObjectModel)
    (b : RbcParticleFilterTrackerBuilder) (t1 t2 : Tracker)
    (h1 : b.build has_gpu_support load = Except.ok t1)
    (h2 : b.build has_gpu_support load = Except.ok t2) :
    t1.filter.sampling_blocks = t2.filter.sampling_blocks ∧
    t1.filter.obsrv_model.backend = t2.filter.obsrv_model.backend := by
  rw [h1] at h2
  injection h2 with h3
  rw [h3]
  exact ⟨rfl, rfl⟩

/-- Witness for C7 at the example configuration. -/
theorem build_deterministic_witness :
    tracker_example.filter.sampling_blocks =
      tracker_example.filter.sampling_blocks ∧
    tracker_example.filter.obsrv_model.backend =
      tracker_example.filter.obsrv_model.backend :=
  build_deterministic false load_example builder_example tracker_example
    tracker_example (by rfl) (by rfl)

/-- Every count produced by clamped adaptive growth stays within the
filter bounds, provided the bounds are consistent and the start value is
within them. -/
lemma scanl_next_sample_count_bounds (f : Filter)
    (hle : f.evaluation_count ≤ f.max_sample_count) :
    ∀ (proposals : List Int) (init c : Int),
      f.evaluation_count ≤ init → init ≤ f.max_sample_count →
      c ∈ proposals.scanl
        (fun _current proposed => next_sample_count f proposed) init →
      f.evaluation_count ≤ c ∧ c ≤ f.max_sample_count := by
  intro proposals
  induction proposals with
  | nil =>
      intro init c h1 h2 hc
      simp [List.scanl] at hc
      rw [hc]
      exact ⟨h1, h2⟩
  | cons p ps ih =>
      intro init c h1 h2 hc
      rw [List.scanl_cons] at hc
      rcases List.mem_append.mp hc with hc | hc
      · rw [List.mem_singleton.mp hc]
        exact ⟨h1, h2⟩
      · exact ih (next_sample_count f p) c
          (le_min hle (le_max_left _ _)) (min_le_left _ _) hc

/-- C8: for every tracker produced by `build()` and every observation
sequence (each step proposing an arbitrary grown particle count), every
particle count used by the adaptive filter stays within the bounds of
the active tracker-parameter set: never above `max_sample_count`, never
below `evaluation_count`. -/
theorem build_sample_count_bounds (has_gpu_support : Bool)
    (load : ObjectResourceIdentifier → Except TrackerError ObjectModel)
    (b : RbcParticleFilterTrackerBuilder) (t : Tracker)
    (proposals : List Int) (c : Int)
    (h : b.build has_gpu_support load = Except.ok t)
    (hle : (active_tracker_parameters b.param_).evaluation_count ≤
      (active_tracker_parameters b.param_).max_sample_count)
    (hc : c ∈ sample_count_trajectory t.filter proposals) :
    (active_tracker_parameters b.param_).evaluation_count ≤ c ∧
    c ≤ (active_tracker_parameters b.param_).max_sample_count := by
  obtain ⟨om, _, hfil, _⟩ := build_ok_elim has_gpu_support load b t h
  obtain ⟨_, _, hev, hmax, _, _⟩ :=
    create_filter_ok_elim has_gpu_support b.param_ b.camera_data_ om
      (active_tracker_parameters b.param_).max_kl_divergence t.filter hfil
  unfold sample_count_trajectory at hc
  have hb := scanl_next_sample_count_bounds t.filter
    (by rw [hev, hmax]; exact hle) proposals t.filter.evaluation_count c
    le_rfl (by rw [hev, hmax]; exact hle) hc
  rw [hev, hmax] at hb
  exact hb

/-- Witness for C8: a run of the example tracker over proposals 5000 and
-3 uses the counts 100, 1000, 100, and the count 1000 is within the
bounds 100 and 1000. -/
theorem build_sample_count_bounds_witness :
    ((1000 : Int) ∈
      sample_count_trajectory tracker_example.filter
        ([(5000 : Int), -3])) ∧
    ((active_tracker_parameters builder_example.param_).evaluation_count ≤
      (1000 : Int) ∧
     (1000 : Int) ≤
      (active_tracker_parameters
        builder_example.param_).max_sample_count) :=
  ⟨by decide,
   build_sample_count_bounds false load_example builder_example
     tracker_example ([(5000 : Int), -3]) 1000 (by rfl) (by decide)
     (by decide)⟩

/-- C10: the builder captures by-value copies of the configuration and
camera data handed to its constructor, so its `build()` result is
determined by the captured values alone: any builder whose captured
members equal those values behaves identically, and a freshly
constructed builder holds exactly the values it was given. -/
theorem builder_captures_by_value (p : Parameters) (cd : CameraData)
    (has_gpu_support : Bool)
    (load : ObjectResourceIdentifier → Except TrackerError ObjectModel)
    (b : RbcParticleFilterTrackerBuilder)
    (h1 : b.param_ = p) (h2 : b.camera_data_ = cd) :
    (RbcParticleFilterTrackerBuilder.construct p cd).param_ = p ∧
    (RbcParticleFilterTrackerBuilder.construct p cd).camera_data_ = cd ∧
    b.build has_gpu_support load =
      (RbcParticleFilterTrackerBuilder.construct p cd).build
        has_gpu_support load := by
  refine ⟨rfl, rfl, ?_⟩
  cases b
  cases h1
  cases h2
  rfl

/-- Witness for C10 at the example configuration. -/
theorem builder_captures_by_value_witness :
    (RbcParticleFilterTrackerBuilder.construct parameters_example
      camera_example).param_ = parameters_example ∧
    (RbcParticleFilterTrackerBuilder.construct parameters_example
      camera_example).camera_data_ = camera_example ∧
    builder_example.build false load_example =
      (RbcParticleFilterTrackerBuilder.construct parameters_example
        camera_example).build false load_example :=
  builder_captures_by_value parameters_example camera_example false
    load_example builder_example rfl rfl

end dbot
